import Mathlib

/-!
Shallow embedding of the google-maps-mcp-server repository (TypeScript).

Conventions of the embedding:
- JavaScript numbers are modelled as exact rationals (ℚ); every arithmetic
  operation the code performs here (sums, division by 1e9, powers of 10) is
  exact on the values concerned, so no rounding behaviour is lost.
- JavaScript strings that are only carried around are modelled as Lean
  String; strings that the code inspects character by character (the
  duration regex, the place-id normalisation) are modelled as List Char,
  the character-sequence view of a JS string.
- undefined/null are modelled as Option.none; JS truthiness checks on
  string values additionally treat the empty string as falsy, which is made
  explicit wherever the source relies on it.
- The provider protobuf interfaces (IPlace, IRoute, IRouteLeg, IDuration,
  ILatLng) have every field optional, exactly as in the generated typings.
-/

/-! ## Duration conversion (index.ts, durationToSeconds) -/

/-- Input type of durationToSeconds: Duration | string | undefined.
The structured branch carries the protobuf IDuration fields seconds and
nanos, both optional.  The source also accepts a string-typed seconds field
and converts it with Number(); the embedding carries the numeric value
directly. -/
inductive DurationInput where
  | absent
  | str (s : List Char)
  | dur (seconds : Option Int) (nanos : Option Int)
deriving DecidableEq

/-- Numeric value of a decimal digit string, as Number() computes it for the
integer and fractional captures of the regex. -/
def digitsVal (l : List Char) : Nat :=
  l.foldl (fun a c => 10 * a + (c.toNat - Char.toNat '0')) 0

/-- The regex match of durationToSeconds: a string matches
[0-9]+(\.[0-9]+)?s anchored at both ends, and its captured number is
returned; otherwise undefined. -/
def parseDurationString (s : List Char) : Option ℚ :=
  let intPart := s.takeWhile Char.isDigit
  let rest := s.dropWhile Char.isDigit
  if intPart.isEmpty then none
  else
    match rest with
    | ['s'] => some (digitsVal intPart : ℚ)
    | '.' :: rest1 =>
      let fracPart := rest1.takeWhile Char.isDigit
      let rest2 := rest1.dropWhile Char.isDigit
      if fracPart.isEmpty then none
      else
        match rest2 with
        | ['s'] =>
            some ((digitsVal intPart : ℚ) +
              (digitsVal fracPart : ℚ) / ((10 : ℚ) ^ fracPart.length))
        | _ => none
    | _ => none

/-- durationToSeconds from index.ts.  The initial falsiness guard
(if (!duration) return undefined) also fires for the empty string. -/
def durationToSeconds : DurationInput → Option ℚ
  | .absent => none
  | .str s => if s.isEmpty then none else parseDurationString s
  | .dur seconds nanos =>
      some ((seconds.getD 0 : ℚ) + (nanos.getD 0 : ℚ) / 1000000000)

/-! ## Places response mapping (index.ts, places_search_text /
places_search_nearby / places_get_place handlers) -/

/-- Protobuf ILatLng: both coordinates optional. -/
structure ILatLng where
  latitude : Option ℚ
  longitude : Option ℚ
deriving DecidableEq

/-- Protobuf ILocalizedText, as used for displayName. -/
structure DisplayName where
  text : Option String
deriving DecidableEq

/-- Protobuf IPlace restricted to the fields the handlers read. -/
structure IPlace where
  id : Option String
  displayName : Option DisplayName
  formattedAddress : Option String
  location : Option ILatLng
  rating : Option ℚ
  userRatingCount : Option ℚ
  primaryType : Option String
deriving DecidableEq

/-- One mapped entry of the results array.  The source writes
location: p.location ? \x7b lat: p.location.latitude!, lng: ... \x7d :
undefined; the non-null assertions are type-level only, so the coordinate
values stay optional inside the pair. -/
structure PlaceResult where
  id : Option String
  display_name : Option String
  formatted_address : Option String
  location : Option (Option ℚ × Option ℚ)
  rating : Option ℚ
  user_rating_count : Option ℚ
  primary_type : Option String
deriving DecidableEq

/-- The per-place mapping shared verbatim by the text and nearby search
handlers. -/
def mapPlace (p : IPlace) : PlaceResult :=
  { id := p.id
    display_name := p.displayName.bind (fun d => d.text)
    formatted_address := p.formattedAddress
    location := p.location.map (fun l => (l.latitude, l.longitude))
    rating := p.rating
    user_rating_count := p.userRatingCount
    primary_type := p.primaryType }

/-- Structured output of the two search tools. -/
structure SearchStructured where
  results : List PlaceResult
  status : String
deriving DecidableEq

/-- places_search_text handler, from the provider response (resp.places is
optional) to the structured output.  Status is results.length ? OK :
ZERO_RESULTS. -/
def placesSearchTextStructured (places : Option (List IPlace)) :
    SearchStructured :=
  let results := (places.getD []).map mapPlace
  { results := results
    status := if results.length = 0 then "ZERO_RESULTS" else "OK" }

/-- places_search_nearby handler; its mapping and status code are textually
identical to the text-search handler. -/
def placesSearchNearbyStructured (places : Option (List IPlace)) :
    SearchStructured :=
  let results := (places.getD []).map mapPlace
  { results := results
    status := if results.length = 0 then "ZERO_RESULTS" else "OK" }

/-! ## Directions response mapping (index.ts, directions handler) -/

/-- Protobuf ILocation as used by route legs: an optional latLng wrapper. -/
structure LegLocation where
  latLng : Option ILatLng
deriving DecidableEq

/-- Protobuf IRouteLeg restricted to the fields the handler reads. -/
structure IRouteLeg where
  startLocation : Option LegLocation
  endLocation : Option LegLocation
  distanceMeters : Option ℚ
  duration : DurationInput
deriving DecidableEq

/-- Protobuf IRoute restricted to the fields the handler reads. -/
structure IRoute where
  distanceMeters : Option ℚ
  duration : DurationInput
  legs : Option (List IRouteLeg)
deriving DecidableEq

/-- One mapped leg.  start_location and end_location are built
unconditionally from the optional chains
leg.startLocation?.latLng?.latitude etc., so each coordinate is an Option. -/
structure LegResult where
  start_location : Option ℚ × Option ℚ
  end_location : Option ℚ × Option ℚ
  distance_meters : Option ℚ
  duration_seconds : Option ℚ
deriving DecidableEq

/-- One mapped route. -/
structure RouteResult where
  distance_meters : Option ℚ
  duration_seconds : Option ℚ
  legs : List LegResult
deriving DecidableEq

/-- Structured output of the directions tool. -/
structure DirectionsStructured where
  routes : List RouteResult
  status : String
deriving DecidableEq

/-- The leg mapping of the directions handler. -/
def mapLeg (leg : IRouteLeg) : LegResult :=
  { start_location :=
      ((leg.startLocation.bind (fun l => l.latLng)).bind (fun l => l.latitude),
       (leg.startLocation.bind (fun l => l.latLng)).bind (fun l => l.longitude))
    end_location :=
      ((leg.endLocation.bind (fun l => l.latLng)).bind (fun l => l.latitude),
       (leg.endLocation.bind (fun l => l.latLng)).bind (fun l => l.longitude))
    distance_meters := leg.distanceMeters
    duration_seconds := durationToSeconds leg.duration }

/-- The route mapping of the directions handler. -/
def mapRoute (route : IRoute) : RouteResult :=
  { distance_meters := route.distanceMeters
    duration_seconds := durationToSeconds route.duration
    legs := (route.legs.getD []).map mapLeg }

/-- The directions handler, from the provider response (data.routes is
optional) to the structured output.  Status is
data?.routes && data.routes.length > 0 ? OK : ZERO_RESULTS. -/
def directionsStructured (routes : Option (List IRoute)) :
    DirectionsStructured :=
  { routes := (routes.getD []).map mapRoute
    status :=
      match routes with
      | some rs => if 0 < rs.length then "OK" else "ZERO_RESULTS"
      | none => "ZERO_RESULTS" }

/-! ## Declared output schema of the directions tool (index.ts,
outputSchema of the directions registration).  legs entries require
start_location and end_location to be objects with numeric lat and lng
(z.number(), not optional); distance_meters and duration_seconds are
optional. -/

/-- A lat/lng pair conforms to z.object(\x7b lat: z.number(), lng:
z.number() \x7d) exactly when both coordinates are present numbers. -/
def latLngConforms : Option ℚ × Option ℚ → Bool
  | (some _, some _) => true
  | _ => false

/-- Schema conformance of one mapped leg. -/
def legConforms (l : LegResult) : Bool :=
  latLngConforms l.start_location && latLngConforms l.end_location

/-- Schema conformance of one mapped route. -/
def routeConforms (r : RouteResult) : Bool :=
  r.legs.all legConforms

/-- Schema conformance of the whole directions structured output. -/
def directionsOutputConforms (d : DirectionsStructured) : Bool :=
  d.routes.all routeConforms

/-! ## Travel mode (index.ts directions handler + googleMaps.ts
directions) -/

/-- The tool-level mode argument. -/
inductive DirectionsMode where
  | driving | walking | bicycling | transit
deriving DecidableEq

/-- The routing API RouteTravelMode values used by TRAVEL_MODE_MAP. -/
inductive RouteTravelMode where
  | DRIVE | WALK | BICYCLE | TRANSIT
deriving DecidableEq

/-- TRAVEL_MODE_MAP from googleMaps.ts. -/
def TRAVEL_MODE_MAP : DirectionsMode → RouteTravelMode
  | .driving => .DRIVE
  | .walking => .WALK
  | .bicycling => .BICYCLE
  | .transit => .TRANSIT

/-- The ComputeRoutesRequest fields built by googleMaps.ts directions. -/
structure ComputeRoutesRequest where
  originAddress : String
  destinationAddress : String
  travelMode : RouteTravelMode
deriving DecidableEq

/-- googleMaps.ts directions: request construction. -/
def buildComputeRoutesRequest (origin destination : String)
    (mode : DirectionsMode) : ComputeRoutesRequest :=
  { originAddress := origin
    destinationAddress := destination
    travelMode := TRAVEL_MODE_MAP mode }

/-- The directions tool handler calls
directions(origin, destination, mode ?? driving); composed with the request
construction above. -/
def directionsRequestOfTool (origin destination : String)
    (mode : Option DirectionsMode) : ComputeRoutesRequest :=
  buildComputeRoutesRequest origin destination (mode.getD .driving)

/-! ## Place-id normalisation (googleMaps.ts, getPlace) -/

/-- getPlace resource-name normalisation:
placeId.startsWith(places/) ? placeId : places/ + placeId.
JS strings are modelled as character lists here because the function
inspects a character prefix. -/
def getPlaceName (placeId : List Char) : List Char :=
  if List.isPrefixOf ("places/".data) placeId then placeId
  else "places/".data ++ placeId

/-! ## Session registry and HTTP routing (index.ts, startHttpServer) -/

/-- A transport as far as the router observes it: its sessionId property,
set once the session is initialised. -/
structure Transport where
  sessionId : Option String
deriving DecidableEq

/-- The in-memory map sessionId → transport (a plain JS object record,
keys unique). -/
abbrev Registry := List (String × Transport)

/-- Resolution of the mcp-session-id header against the registry:
sessionId ? transports[sessionId] : undefined.  The JS truthiness test
also rejects an empty-string header value. -/
def resolveSession (r : Registry) (h : Option String) : Option Transport :=
  match h with
  | none => none
  | some sid => if sid = "" then none else r.lookup sid

/-- What a POST request looks like to the router: the optional
mcp-session-id header, and whether isInitializeRequest(body) holds. -/
structure PostRequest where
  sessionIdHeader : Option String
  bodyIsInitialize : Bool
deriving DecidableEq

/-- Router outcome of a POST: a 400 client error with a JSON-RPC-style
body, the request handed to an existing transport, or a new transport
created (and registered under the fresh generated id) which handles the
request. -/
inductive PostOutcome where
  | clientError (status : Nat) (code : Int) (message : String)
  | handledBy (t : Transport)
  | createdNew (sid : String)
deriving DecidableEq

/-- The POST /mcp route handler.  freshSid stands for the randomUUID()
the transport generator would produce; onsessioninitialized registers the
new transport under it. -/
def handlePost (r : Registry) (req : PostRequest) (freshSid : String) :
    PostOutcome × Registry :=
  match resolveSession r req.sessionIdHeader with
  | some t => (.handledBy t, r)
  | none =>
    if req.bodyIsInitialize then
      (.createdNew freshSid, (freshSid, { sessionId := some freshSid }) :: r)
    else
      (.clientError 400 (-32000) "Bad Request: No valid session ID provided",
        r)

/-- Router outcome of a GET or DELETE: a 400 plain-text error, or the
request handed to the resolved transport. -/
inductive SseOutcome where
  | clientError (status : Nat) (body : String)
  | handledBy (t : Transport)
deriving DecidableEq

/-- The GET /mcp route handler. -/
def handleGet (r : Registry) (h : Option String) : SseOutcome × Registry :=
  match resolveSession r h with
  | none => (.clientError 400 "Invalid or missing session ID", r)
  | some t => (.handledBy t, r)

/-- The DELETE /mcp route handler; its routing code is textually identical
to the GET handler. -/
def handleDelete (r : Registry) (h : Option String) : SseOutcome × Registry :=
  match resolveSession r h with
  | none => (.clientError 400 "Invalid or missing session ID", r)
  | some t => (.handledBy t, r)

/-- Removal of a session id from the registry (delete transports[sid]). -/
def destroySession (r : Registry) (sid : String) : Registry :=
  r.filter (fun e => !(e.1 == sid))

/-- transport.onclose: reads transport?.sessionId and, when truthy (present
and non-empty), deletes that registry entry. -/
def oncloseCleanup (r : Registry) (sid : Option String) : Registry :=
  match sid with
  | none => r
  | some s => if s = "" then r else destroySession r s

/-! ## Configuration (config.ts) -/

/-- The environment as the config module reads it. -/
structure Env where
  googleMapsApiKey : Option String
  port : Option String
deriving DecidableEq

/-- env-var variable access: an unset or empty variable counts as absent. -/
def envGet (v : Option String) : Option String :=
  match v with
  | none => none
  | some s => if s = "" then none else some s

/-- Startup configuration errors raised by env-var accessors. -/
inductive ConfigError where
  | missingRequired (name : String)
  | notPositiveInt (name : String)
deriving DecidableEq

/-- The resolved configuration record. -/
structure Config where
  googleMapsApiKey : String
  port : Nat
deriving DecidableEq

/-- Canonical decimal form: the strings that n.toString(10) produces for a
non-negative integer n — a nonempty digit string with no leading zero,
except the single digit 0 itself. -/
def isCanonicalNat (l : List Char) : Bool :=
  match l with
  | [] => false
  | c :: cs => (c :: cs).all Char.isDigit && (c != '0' || cs.isEmpty)

/-- env-var asIntPositive: asInt applies parseInt and rejects any value
failing the round-trip check n.toString(10) === value; asIntPositive then
rejects only negative results, so zero is accepted.  A negative canonical
string parses but fails the sign check, leaving exactly the canonical
non-negative integers. -/
def asIntPositive (s : String) : Option Nat :=
  if isCanonicalNat s.data then some (digitsVal s.data) else none

/-- config.ts: GOOGLE_MAPS_API_KEY is required().asString(); PORT is
default(3000).asIntPositive().  Evaluated once at module load. -/
def loadConfig (e : Env) : Except ConfigError Config :=
  match envGet e.googleMapsApiKey with
  | none => .error (.missingRequired "GOOGLE_MAPS_API_KEY")
  | some key =>
    match asIntPositive ((envGet e.port).getD "3000") with
    | none => .error (.notPositiveInt "PORT")
    | some p => .ok { googleMapsApiKey := key, port := p }

/-- Startup outcome: a config error is thrown at module load, before
startHttpServer runs, so the process never begins serving. -/
inductive Startup where
  | failed (e : ConfigError)
  | serving (port : Nat)
deriving DecidableEq

/-- Process startup: evaluate the config module, then listen on the
configured port. -/
def startup (e : Env) : Startup :=
  match loadConfig e with
  | .error err => .failed err
  | .ok c => .serving c.port

/-- Concrete provider response used to exercise the directions handler on a
route whose leg omits startLocation and endLocation (every field of
IRouteLeg is optional in the protobuf typings, and the field mask does not
force the provider to populate them). -/
def legWithoutLocations : IRouteLeg :=
  { startLocation := none
    endLocation := none
    distanceMeters := none
    duration := .absent }

/-- A one-route response whose single leg carries no locations. -/
def responseWithBareLeg : Option (List IRoute) :=
  some [{ distanceMeters := none
          duration := .absent
          legs := some [legWithoutLocations] }]

/-! ## Helper lemmas -/

/-- A list is a Boolean-level prefix of itself followed by anything. -/
theorem isPrefixOfAppendSelf (l r : List Char) :
    List.isPrefixOf l (l ++ r) = true := by
  induction l with
  | nil => simp [List.isPrefixOf]
  | cons a t ih => simp [List.isPrefixOf, ih]

/-- takeWhile over an all-satisfying block followed by a failing head
returns the block. -/
theorem takeWhileDigitsAppend (l r : List Char) (c : Char)
    (hl : ∀ x ∈ l, Char.isDigit x = true) (hc : Char.isDigit c = false) :
    (l ++ c :: r).takeWhile Char.isDigit = l := by
  induction l with
  | nil => simp [List.takeWhile_cons, hc]
  | cons a t ih =>
    have ha : Char.isDigit a = true := hl a (by simp)
    simp [List.takeWhile_cons, ha, ih (fun x hx => hl x (by simp [hx]))]

/-- dropWhile over an all-satisfying block followed by a failing head
returns the tail starting at the failing head. -/
theorem dropWhileDigitsAppend (l r : List Char) (c : Char)
    (hl : ∀ x ∈ l, Char.isDigit x = true) (hc : Char.isDigit c = false) :
    (l ++ c :: r).dropWhile Char.isDigit = c :: r := by
  induction l with
  | nil => simp [List.dropWhile_cons, hc]
  | cons a t ih =>
    have ha : Char.isDigit a = true := hl a (by simp)
    simp [List.dropWhile_cons, ha, ih (fun x hx => hl x (by simp [hx]))]

/-- A lookup that misses means no registry entry carries that key. -/
theorem lookupNoneKeys (r : Registry) (sid : String)
    (h : r.lookup sid = none) : ∀ e ∈ r, (e.1 == sid) = false := by
  induction r with
  | nil => intro e he; cases he
  | cons a t ih =>
    obtain ⟨k, v⟩ := a
    by_cases hk : (sid == k) = true
    · simp [List.lookup, hk] at h
    · have hkf : (sid == k) = false := by simpa using hk
      have ht : t.lookup sid = none := by simpa [List.lookup, hkf] using h
      intro e he
      rcases List.mem_cons.mp he with rfl | he2
      · exact beq_eq_false_iff_ne.mpr (Ne.symm (ne_of_beq_false hkf))
      · exact ih ht e he2

/-- A successful asIntPositive means the input was in canonical
non-negative integer form. -/
theorem asIntPositiveCanonical (s : String) (n : Nat)
    (h : asIntPositive s = some n) : isCanonicalNat s.data = true := by
  unfold asIntPositive at h
  split at h
  · assumption
  · cases h

/-- The regex accepts a nonempty digit string followed by the unit s and
returns the digits' value. -/
theorem parseDurationIntOnly (intPart : List Char) (hi : intPart ≠ [])
    (hid : ∀ c ∈ intPart, c.isDigit = true) :
    parseDurationString (intPart ++ ['s']) =
      some (digitsVal intPart : ℚ) := by
  unfold parseDurationString
  rw [show (intPart ++ ['s']) = intPart ++ 's' :: [] from rfl,
    takeWhileDigitsAppend intPart [] 's' hid (by decide),
    dropWhileDigitsAppend intPart [] 's' hid (by decide)]
  simp [hi]

/-- The regex accepts a nonempty digit string, a decimal point, a second
nonempty digit string and the unit s, and returns the denoted decimal. -/
theorem parseDurationFrac (intPart fracPart : List Char)
    (hi : intPart ≠ []) (hid : ∀ c ∈ intPart, c.isDigit = true)
    (hf : fracPart ≠ []) (hfd : ∀ c ∈ fracPart, c.isDigit = true) :
    parseDurationString (intPart ++ '.' :: (fracPart ++ ['s'])) =
      some ((digitsVal intPart : ℚ) +
        (digitsVal fracPart : ℚ) / ((10 : ℚ) ^ fracPart.length)) := by
  unfold parseDurationString
  rw [takeWhileDigitsAppend intPart (fracPart ++ ['s']) '.' hid (by decide),
    dropWhileDigitsAppend intPart (fracPart ++ ['s']) '.' hid (by decide)]
  have hne : intPart.isEmpty = false := by
    cases intPart with
    | nil => exact absurd rfl hi
    | cons a t => rfl
  simp only [hne, Bool.false_eq_true, if_false]
  rw [show (fracPart ++ ['s']) = fracPart ++ 's' :: [] from rfl,
    takeWhileDigitsAppend fracPart [] 's' hfd (by decide),
    dropWhileDigitsAppend fracPart [] 's' hfd (by decide)]
  have hnef : fracPart.isEmpty = false := by
    cases fracPart with
    | nil => exact absurd rfl hf
    | cons a t => rfl
  simp only [hnef, Bool.false_eq_true, if_false]

/-! ## Claim theorems -/

/-- C5: when the provider returns zero routes (absent or empty routes
list) the directions handler returns routes = [] and status ZERO_RESULTS,
and an omitted mode argument issues the request with travel mode DRIVE. -/
theorem directionsZeroRoutesAndDefaultMode (origin destination : String) :
    directionsStructured none =
      { routes := [], status := "ZERO_RESULTS" } ∧
    directionsStructured (some []) =
      { routes := [], status := "ZERO_RESULTS" } ∧
    directionsRequestOfTool origin destination none =
      { originAddress := origin, destinationAddress := destination,
        travelMode := RouteTravelMode.DRIVE } :=
  ⟨rfl, rfl, rfl⟩

/-- C4: evaluation of the directions handler on a provider response whose
single leg omits startLocation and endLocation.  The handler emits
start_location = (none, none) and end_location = (none, none), and the
resulting structured output fails the declared output schema, which
requires numeric lat and lng on every leg. -/
theorem directionsLegSchemaViolation :
    (directionsStructured responseWithBareLeg).routes =
      [{ distance_meters := none, duration_seconds := none,
         legs := [{ start_location := (none, none),
                    end_location := (none, none),
                    distance_meters := none,
                    duration_seconds := none }] }] ∧
    directionsOutputConforms (directionsStructured responseWithBareLeg) =
      false :=
  ⟨rfl, rfl⟩

/-- C7: a POST carrying no session id whose body is not an initialization
message is answered 400 with the JSON-RPC-style body
code -32000 / Bad Request: No valid session ID provided, and the registry
is unchanged (no session created). -/
theorem postWithoutSessionNonInit (r : Registry) (freshSid : String) :
    handlePost r { sessionIdHeader := none, bodyIsInitialize := false }
        freshSid =
      (.clientError 400 (-32000)
        "Bad Request: No valid session ID provided", r) :=
  rfl

/-- C1 counterexample: a POST presenting the session id stale, which maps
to no live session in the empty registry, with an initialize body, is not
failed: the router creates and registers a brand-new session. -/
theorem postStaleSessionInitCounterexample :
    (handlePost [] { sessionIdHeader := some "stale", bodyIsInitialize := true } "fresh").1 =
      PostOutcome.createdNew "fresh" ∧
    (handlePost [] { sessionIdHeader := some "stale", bodyIsInitialize := true } "fresh").2 =
      [("fresh", { sessionId := some "fresh" })] :=
  ⟨rfl, rfl⟩

/-- C1 (amended): for a POST presenting a session id that does not resolve
to a live session, if the body is not an initialization message the router
fails with the 400 client error and creates no session; if the body is an
initialization message the router creates and registers a fresh session,
exactly as for a request with no session id. -/
theorem postUnknownSessionAmended (r : Registry) (sid freshSid : String)
    (h : resolveSession r (some sid) = none) :
    handlePost r { sessionIdHeader := some sid, bodyIsInitialize := false }
        freshSid =
      (.clientError 400 (-32000)
        "Bad Request: No valid session ID provided", r) ∧
    handlePost r { sessionIdHeader := some sid, bodyIsInitialize := true }
        freshSid =
      (.createdNew freshSid,
        (freshSid, { sessionId := some freshSid }) :: r) := by
  constructor <;> simp [handlePost, h]

/-- C1 witness: the amended claim applied to the empty registry and the
session id stale. -/
theorem postUnknownSessionAmendedWitness :
    handlePost [] { sessionIdHeader := some "stale", bodyIsInitialize := false } "fresh" =
      (.clientError 400 (-32000)
        "Bad Request: No valid session ID provided", []) :=
  (postUnknownSessionAmended [] "stale" "fresh" rfl).1

/-- C3: both search handlers return status ZERO_RESULTS exactly when the
mapped results array is empty, and status OK in every other case. -/
theorem searchStatusZeroResultsIff (places : Option (List IPlace)) :
    ((placesSearchTextStructured places).status = "ZERO_RESULTS" ↔
      (placesSearchTextStructured places).results = []) ∧
    ((placesSearchTextStructured places).status = "OK" ↔
      (placesSearchTextStructured places).results ≠ []) ∧
    ((placesSearchNearbyStructured places).status = "ZERO_RESULTS" ↔
      (placesSearchNearbyStructured places).results = []) ∧
    ((placesSearchNearbyStructured places).status = "OK" ↔
      (placesSearchNearbyStructured places).results ≠ []) := by
  by_cases h : ((places.getD []).map mapPlace).length = 0
  · simp_all [placesSearchTextStructured, placesSearchNearbyStructured,
      List.length_eq_zero]
  · simp_all [placesSearchTextStructured, placesSearchNearbyStructured,
      List.length_eq_zero]

/-- C3 witness: an absent places list maps to an empty results array with
status ZERO_RESULTS. -/
theorem searchStatusZeroResultsIffWitness :
    (placesSearchTextStructured none).status = "ZERO_RESULTS" :=
  (searchStatusZeroResultsIff none).1.mpr rfl

/-- C8: a GET or DELETE whose session-id header is absent, empty, or does
not reference a live session is answered 400 with the plain-text body
Invalid or missing session ID, and the registry is untouched. -/
theorem getDeleteInvalidSession (r : Registry) (h : Option String)
    (hmiss : resolveSession r h = none) :
    handleGet r h = (.clientError 400 "Invalid or missing session ID", r) ∧
    handleDelete r h =
      (.clientError 400 "Invalid or missing session ID", r) := by
  constructor <;> simp [handleGet, handleDelete, hmiss]

/-- C8 witness: the theorem applied to the empty registry and an absent
header. -/
theorem getDeleteInvalidSessionWitness :
    handleGet [] none =
      (.clientError 400 "Invalid or missing session ID", []) :=
  (getDeleteInvalidSession [] none rfl).1

/-- C6: destroying a session id that is absent from the registry is a
no-op that leaves the registry unchanged, and a second destroy immediately
after a first changes nothing; the onclose cleanup likewise never errors. -/
theorem destroySessionIdempotentNoop (r : Registry) (sid : String)
    (h : r.lookup sid = none) :
    destroySession r sid = r ∧
    ∀ r2 : Registry,
      destroySession (destroySession r2 sid) sid = destroySession r2 sid := by
  constructor
  · rw [destroySession]
    apply List.filter_eq_self.mpr
    intro e he
    rw [lookupNoneKeys r sid h e he]
    rfl
  · intro r2
    simp [destroySession, List.filter_filter]

/-- C6 witness: destroying an id not present in a one-entry registry
returns the registry unchanged. -/
theorem destroySessionIdempotentNoopWitness :
    destroySession [("a", { sessionId := some "a" })] "b" =
      [("a", { sessionId := some "a" })] :=
  (destroySessionIdempotentNoop [("a", { sessionId := some "a" })] "b"
    rfl).1

/-- C9 counterexample: the PORT value 0 is accepted — the configuration
loads with port 0 and the process begins serving — although 0 is not a
positive integer, refuting the claim that the port must otherwise be a
positive integer. -/
theorem configPortZeroCounterexample :
    startup { googleMapsApiKey := some "key", port := some "0" } =
      .serving 0 ∧ ¬ ((0 : Nat) < 0) :=
  ⟨by decide, by decide⟩

/-- C9 (amended): configuration is read once at startup; if the API key
variable is absent the process fails at startup and never begins serving;
the listen port, when absent, defaults to 3000, and must otherwise be a
canonical non-negative integer — env-var asIntPositive rejects only
negative values, so PORT=0 is accepted and the process serves on port 0. -/
theorem configStartupSpecAmended (e : Env) :
    (envGet e.googleMapsApiKey = none →
      startup e = .failed (.missingRequired "GOOGLE_MAPS_API_KEY")) ∧
    (∀ k, envGet e.googleMapsApiKey = some k → envGet e.port = none →
      loadConfig e = .ok { googleMapsApiKey := k, port := 3000 }) ∧
    (∀ k p n, envGet e.googleMapsApiKey = some k → envGet e.port = some p →
      loadConfig e = .ok { googleMapsApiKey := k, port := n } →
      asIntPositive p = some n ∧ isCanonicalNat p.data = true) := by
  refine ⟨fun hk => ?_, fun k hk hp => ?_, fun k p n hk hp hok => ?_⟩
  · simp [startup, loadConfig, hk]
  · have h3 : asIntPositive "3000" = some 3000 := by decide
    simp [loadConfig, hk, hp, h3]
  · simp only [loadConfig, hk, hp, Option.getD_some] at hok
    cases hpp : asIntPositive p with
    | none => rw [hpp] at hok; cases hok
    | some m =>
      rw [hpp] at hok
      have hmn : m = n := by
        injection hok with h2
        exact congrArg Config.port h2
      cases hmn
      exact ⟨rfl, asIntPositiveCanonical p n hpp⟩

/-- C9 witness: an environment without the API key fails startup; an
environment with only the key serves on port 3000. -/
theorem configStartupSpecAmendedWitness :
    startup { googleMapsApiKey := none, port := none } =
      .failed (.missingRequired "GOOGLE_MAPS_API_KEY") ∧
    loadConfig { googleMapsApiKey := some "k", port := none } =
      .ok { googleMapsApiKey := "k", port := 3000 } :=
  ⟨(configStartupSpecAmended { googleMapsApiKey := none, port := none }).1
     rfl,
   (configStartupSpecAmended
     { googleMapsApiKey := some "k", port := none }).2.1 "k" rfl rfl⟩

/-- C10: getPlace normalisation prefixes places/ exactly when the argument
does not already start with it, passes an already-normalised name through
unchanged, and is idempotent. -/
theorem getPlaceNameNormalisation (placeId : List Char) :
    (List.isPrefixOf ("places/".data) placeId = true →
      getPlaceName placeId = placeId) ∧
    (List.isPrefixOf ("places/".data) placeId = false →
      getPlaceName placeId = "places/".data ++ placeId) ∧
    getPlaceName (getPlaceName placeId) = getPlaceName placeId := by
  cases hp : List.isPrefixOf ("places/".data) placeId with
  | true => simp [getPlaceName, hp]
  | false => simp [getPlaceName, hp, isPrefixOfAppendSelf]

/-- C10 witness: a bare id gains the places/ resource path; a full resource
name passes through unchanged. -/
theorem getPlaceNameNormalisationWitness :
    getPlaceName ("abc".data) = "places/".data ++ "abc".data ∧
    getPlaceName ("places/abc".data) = "places/abc".data :=
  ⟨(getPlaceNameNormalisation ("abc".data)).2.1 (by decide),
   (getPlaceNameNormalisation ("places/abc".data)).1 (by decide)⟩

/-- C2: durationToSeconds returns 3.5 for the string 3.5s and for the
structured value seconds 3 / nanos 500000000; an absent duration converts
to an absent value (never 0); any string of a nonempty digit sequence,
optionally a decimal point and a second nonempty digit sequence, followed
by the unit s converts to the denoted number; and any seconds/nanos pair
converts to seconds + nanos / 1e9. -/
theorem durationToSecondsSpec (intPart fracPart : List Char)
    (secs nanos : Int)
    (hi : intPart ≠ []) (hid : ∀ c ∈ intPart, c.isDigit = true)
    (hf : fracPart ≠ []) (hfd : ∀ c ∈ fracPart, c.isDigit = true) :
    durationToSeconds (.str "3.5s".data) = some ((7 : ℚ) / 2) ∧
    durationToSeconds (.dur (some 3) (some 500000000)) =
      some ((7 : ℚ) / 2) ∧
    durationToSeconds .absent = none ∧
    durationToSeconds (.str (intPart ++ ['s'])) =
      some (digitsVal intPart : ℚ) ∧
    durationToSeconds (.str (intPart ++ '.' :: (fracPart ++ ['s']))) =
      some ((digitsVal intPart : ℚ) +
        (digitsVal fracPart : ℚ) / ((10 : ℚ) ^ fracPart.length)) ∧
    durationToSeconds (.dur (some secs) (some nanos)) =
      some ((secs : ℚ) + (nanos : ℚ) / 1000000000) := by
  refine ⟨?_, ?_, rfl, ?_, ?_, rfl⟩
  · have hdata : ("3.5s".data) = ['3'] ++ '.' :: (['5'] ++ ['s']) := by
      decide
    rw [hdata]
    have hstep :
        durationToSeconds (.str (['3'] ++ '.' :: (['5'] ++ ['s']))) =
          parseDurationString (['3'] ++ '.' :: (['5'] ++ ['s'])) := rfl
    rw [hstep, parseDurationFrac ['3'] ['5'] (by decide) (by decide)
      (by decide) (by decide)]
    have h3 : digitsVal ['3'] = 3 := by decide
    have h5 : digitsVal ['5'] = 5 := by decide
    rw [h3, h5]
    norm_num
  · show some (((3 : Int) : ℚ) + ((500000000 : Int) : ℚ) / 1000000000) =
      some ((7 : ℚ) / 2)
    norm_num
  · have hne : (intPart ++ ['s']).isEmpty = false := by
      cases intPart with
      | nil => exact absurd rfl hi
      | cons a t => rfl
    simp only [durationToSeconds, hne, Bool.false_eq_true, if_false]
    exact parseDurationIntOnly intPart hi hid
  · have hne : (intPart ++ '.' :: (fracPart ++ ['s'])).isEmpty = false := by
      cases intPart with
      | nil => exact absurd rfl hi
      | cons a t => rfl
    simp only [durationToSeconds, hne, Bool.false_eq_true, if_false]
    exact parseDurationFrac intPart fracPart hi hid hf hfd

/-- C2 witness: the theorem instantiated at the digit strings 12 and 5 and
the structured pair (3, 500000000). -/
theorem durationToSecondsSpecWitness :
    durationToSeconds (.str "3.5s".data) = some ((7 : ℚ) / 2) ∧
    durationToSeconds (.str (['1', '2'] ++ ['s'])) =
      some (digitsVal ['1', '2'] : ℚ) :=
  ⟨(durationToSecondsSpec ['1', '2'] ['5'] 3 500000000 (by decide)
      (by decide) (by decide) (by decide)).1,
   (durationToSecondsSpec ['1', '2'] ['5'] 3 500000000 (by decide)
      (by decide) (by decide) (by decide)).2.2.2.1⟩
